import Mathlib

/-!
Verification of the pi-agent-demo extension scripts.

The repository ships two tiny TypeScript extensions for the Pi coding-agent
host:

* `src/.pi/extensions/security.ts` registers a `tool_call` guard: for a bash
  tool-call event it checks whether the command string contains the substring
  `"sudo"` (via JavaScript `String.prototype.includes`) and, if so, returns a
  block decision `{ block: true, reason }`; otherwise it returns `undefined`.
  Non-bash events are ignored (the handler returns `undefined` before ever
  looking at the input).

* `src/.pi/extensions/hello-world.ts` registers a `hello-world` command whose
  handler performs a single notification call `ctx.ui.notify("hello world",
  "info")` and returns nothing.

This file embeds both handlers as pure Lean functions over an explicit event
model and proves the specified properties about them.
-/

/-- Input payload of a tool-call event, mirroring `event.input` of the host
API. A bash event carries a `command` string; `extraInput` stands for any
further fields of the payload, which the guard never reads. -/
structure ToolInput where
  command : String
  extraInput : List (String × String)
deriving DecidableEq, Repr

/-- A tool-call event as seen by the `tool_call` handler: a tool-type
discriminator (`toolType`, e.g. `"bash"`), the input payload, and
`extraFields` standing for every other field of the event object. -/
structure ToolCallEvent where
  toolType : String
  input : ToolInput
  extraFields : List (String × String)
deriving DecidableEq, Repr

/-- A veto decision returned by the guard: `{ block: boolean, reason: string }`
exactly as in `security.ts`. -/
structure Decision where
  block : Bool
  reason : String
deriving DecidableEq, Repr

/-- Embedding of `isToolCallEventType(type, event)` from the host API: the
event matches the tool type iff its discriminator equals the given string. -/
def isToolCallEventType (type : String) (event : ToolCallEvent) : Bool :=
  event.toolType == type

/-- Embedding of `isBash` from `security.ts`:
`isToolCallEventType("bash", event)`. -/
def isBash (event : ToolCallEvent) : Bool :=
  isToolCallEventType "bash" event

/-- Embedding of `containsSudo` from `security.ts`:
`event.input.command.includes("sudo")`, i.e. the character sequence `sudo`
occurs as a contiguous substring of the command string. -/
def containsSudo (event : ToolCallEvent) : Bool :=
  decide ("sudo".toList <:+: event.input.command.toList)

/-- Embedding of `block` from `security.ts`: `{ block: true, reason }`. -/
def block (reason : String) : Decision :=
  { block := true, reason := reason }

/-- The fixed reason string used by the guard when it blocks a command. -/
def sudoReason : String :=
  "dangerous command, sudo is not allowed for agent"

/-- Embedding of the `tool_call` handler registered by the default export of
`security.ts`. Returning `none` models the handler returning `undefined`
(allow); returning `some d` models returning the decision object `d`. -/
def securityHandler (event : ToolCallEvent) : Option Decision :=
  if !isBash event then none
  else if containsSudo event then some (block sudoReason)
  else none

/-- The host dispatch loop for the guard: events are handed to the handler one
after the other, each producing its own optional decision. Mirrors the host
invoking the registered `tool_call` callback per event. -/
def dispatchLoop : List ToolCallEvent → List (Option Decision)
  | [] => []
  | e :: rest => securityHandler e :: dispatchLoop rest

/-- A notification call made through `ctx.ui.notify(message, level)`. -/
structure Notification where
  message : String
  level : String
deriving DecidableEq, Repr

/-- Embedding of the `hello-world` command handler from `hello-world.ts`: it
performs the single notification call `ctx.ui.notify("hello world", "info")`
and returns no value. The first component is the trace of notification calls
the handler performs; the second is its (unit) return value. -/
def helloWorldHandler (_args : List String) : List Notification × Unit :=
  ([{ message := "hello world", level := "info" }], ())

/-- Length of the dispatch loop's output equals the number of events. -/
theorem dispatchLoop_length (es : List ToolCallEvent) :
    (dispatchLoop es).length = es.length := by
  induction es with
  | nil => rfl
  | cons e rest ih => simp [dispatchLoop, ih]

/-- C1: every bash tool-call event whose command contains the substring
`"sudo"` is blocked: the guard returns a decision with `block = true` and a
non-empty reason. -/
theorem sudo_commands_blocked (event : ToolCallEvent)
    (hbash : isBash event = true) (hsudo : containsSudo event = true) :
    ∃ d : Decision, securityHandler event = some d ∧
      d.block = true ∧ d.reason ≠ "" := by
  refine ⟨block sudoReason, ?_, rfl, by decide⟩
  simp [securityHandler, hbash, hsudo]

/-- Witness for C1 at the concrete event `bash: "sudo rm -rf /"`. -/
theorem sudo_commands_blocked_witness :
    ∃ d : Decision,
      securityHandler ⟨"bash", ⟨"sudo rm -rf /", []⟩, []⟩ = some d ∧
      d.block = true ∧ d.reason ≠ "" :=
  sudo_commands_blocked ⟨"bash", ⟨"sudo rm -rf /", []⟩, []⟩
    (by decide) (by decide)

/-- C2: every bash tool-call event whose command does not contain the
substring `"sudo"` yields no decision: the guard returns `none` (allow). -/
theorem non_sudo_commands_allowed (event : ToolCallEvent)
    (hbash : isBash event = true) (hsudo : containsSudo event = false) :
    securityHandler event = none := by
  simp [securityHandler, hbash, hsudo]

/-- Witness for C2 at the concrete event `bash: "ls -la"`. -/
theorem non_sudo_commands_allowed_witness :
    securityHandler ⟨"bash", ⟨"ls -la", []⟩, []⟩ = none :=
  non_sudo_commands_allowed ⟨"bash", ⟨"ls -la", []⟩, []⟩
    (by decide) (by decide)

/-- C3: the three example inputs. `"sudo rm -rf /"` is blocked with the exact
reason string, `"ls -la"` yields no decision, and `"echo sudoku"` is blocked
as well because the substring match is not word-boundary aware. -/
theorem guard_examples :
    securityHandler ⟨"bash", ⟨"sudo rm -rf /", []⟩, []⟩ =
      some ⟨true, "dangerous command, sudo is not allowed for agent"⟩ ∧
    securityHandler ⟨"bash", ⟨"ls -la", []⟩, []⟩ = none ∧
    (∃ d : Decision,
      securityHandler ⟨"bash", ⟨"echo sudoku", []⟩, []⟩ = some d ∧
      d.block = true) := by
  refine ⟨by decide, by decide, ⟨block sudoReason, by decide, rfl⟩⟩

/-- C4: a tool-call event whose discriminator is not the bash type yields no
decision, and the result does not depend on the event's input payload at all:
replacing the input by anything whatsoever still yields no decision. -/
theorem non_bash_events_ignored (event : ToolCallEvent)
    (hnot : isBash event = false) :
    securityHandler event = none ∧
    ∀ otherInput : ToolInput,
      securityHandler { event with input := otherInput } = none := by
  constructor
  · simp [securityHandler, hnot]
  · intro otherInput
    have h : isBash { event with input := otherInput } = false := by
      simpa [isBash, isToolCallEventType] using hnot
    simp [securityHandler, h]

/-- Witness for C4 at a concrete non-bash event carrying a sudo command in its
payload. -/
theorem non_bash_events_ignored_witness :
    securityHandler ⟨"edit", ⟨"sudo rm -rf /", []⟩, []⟩ = none ∧
    ∀ otherInput : ToolInput,
      securityHandler ⟨"edit", otherInput, []⟩ = none :=
  non_bash_events_ignored ⟨"edit", ⟨"sudo rm -rf /", []⟩, []⟩ (by decide)

/-- C5: every invocation of the `hello-world` handler, whatever the arguments,
performs exactly the one notification call `("hello world", "info")` and
returns no value. -/
theorem hello_world_notification (args : List String) :
    helloWorldHandler args =
      ([{ message := "hello world", level := "info" }], ()) := by
  rfl

/-- C6: the veto decision is a pure function of the command string: two bash
events with equal command strings receive equal decisions, however much the
rest of the events differ. -/
theorem guard_pure_function_of_command (e₁ e₂ : ToolCallEvent)
    (h₁ : isBash e₁ = true) (h₂ : isBash e₂ = true)
    (hcmd : e₁.input.command = e₂.input.command) :
    securityHandler e₁ = securityHandler e₂ := by
  have hc : containsSudo e₁ = containsSudo e₂ := by
    simp [containsSudo, hcmd]
  simp [securityHandler, h₁, h₂, hc]

/-- Witness for C6 on two bash events that share a command but differ in every
other field. -/
theorem guard_pure_function_of_command_witness :
    securityHandler ⟨"bash", ⟨"sudo su", [("cwd", "/a")]⟩, [("id", "1")]⟩ =
    securityHandler ⟨"bash", ⟨"sudo su", [("cwd", "/b")]⟩, [("id", "2")]⟩ :=
  guard_pure_function_of_command
    ⟨"bash", ⟨"sudo su", [("cwd", "/a")]⟩, [("id", "1")]⟩
    ⟨"bash", ⟨"sudo su", [("cwd", "/b")]⟩, [("id", "2")]⟩
    (by decide) (by decide) rfl

/-- C7: for every event the guard's result has one of exactly two shapes:
no value (allow), or a decision object with a boolean block flag and a string
reason (deny); in fact every decision it returns is the fixed block object. -/
theorem guard_result_shape (event : ToolCallEvent) :
    securityHandler event = none ∨
    securityHandler event = some (block sudoReason) := by
  unfold securityHandler
  by_cases hb : isBash event
  · by_cases hs : containsSudo event
    · right; simp [hb, hs]
    · left; simp [hb, hs]
  · left; simp [hb]

/-- C8: the guard is stateless and memoryless between invocations: in any
sequence of events processed by the dispatch loop, the decision recorded for
the i-th event is exactly the decision the handler returns for that event in
isolation, and the events themselves are never modified. -/
theorem guard_stateless (es : List ToolCallEvent) (i : Nat)
    (h : i < es.length) :
    (dispatchLoop es)[i]? = some (securityHandler (es.get ⟨i, h⟩)) := by
  induction es generalizing i with
  | nil => exact absurd h (by simp)
  | cons e rest ih =>
    cases i with
    | zero => simp [dispatchLoop]
    | succ n =>
      have hn : n < rest.length := by simpa using h
      simpa [dispatchLoop] using ih n hn

/-- Witness for C8 on a concrete two-event sequence. -/
theorem guard_stateless_witness :
    (dispatchLoop [⟨"bash", ⟨"sudo id", []⟩, []⟩,
        ⟨"bash", ⟨"ls", []⟩, []⟩])[1]? =
      some (securityHandler
        ((([⟨"bash", ⟨"sudo id", []⟩, []⟩,
            ⟨"bash", ⟨"ls", []⟩, []⟩] : List ToolCallEvent)).get
          ⟨1, by decide⟩)) :=
  guard_stateless
    [⟨"bash", ⟨"sudo id", []⟩, []⟩, ⟨"bash", ⟨"ls", []⟩, []⟩] 1 (by decide)

/-- C9: the guard never returns an explicit allow decision: whenever it
returns a decision object at all, that object has `block = true` and the fixed
reason string; allowing is only ever expressed by returning no value. -/
theorem guard_never_explicit_allow (event : ToolCallEvent) (d : Decision)
    (h : securityHandler event = some d) :
    d.block = true ∧ d.reason = sudoReason := by
  unfold securityHandler at h
  by_cases hb : isBash event
  · by_cases hs : containsSudo event
    · simp [hb, hs] at h
      simp [← h, block]
    · simp [hb, hs] at h
  · simp [hb] at h

/-- Witness for C9 at the concrete blocked event `bash: "sudo -i"`. -/
theorem guard_never_explicit_allow_witness :
    (block sudoReason).block = true ∧ (block sudoReason).reason = sudoReason :=
  guard_never_explicit_allow ⟨"bash", ⟨"sudo -i", []⟩, []⟩
    (block sudoReason) (by decide)

/-- C10: the `hello-world` handler's behavior is independent of its argument:
any two invocations perform the same single notification call and return the
same value. -/
theorem hello_world_arg_independent (args₁ args₂ : List String) :
    helloWorldHandler args₁ = helloWorldHandler args₂ := by
  rfl
